import Mathlib

/-!
Shallow embedding of the `arc` utility (files `src/arc/cleanup_untracked_git.py`
and `src/arc/__main__.py`).

The program is a sequential, single-threaded script.  We model its interaction
with the outside world by an `Env`: the results of the two `git` subprocess
invocations, the `os.path.isfile` predicate at filter time, and failure
injection for `os.makedirs`, `shutil.move` and the log-file write (each keyed
by the path the call receives; `none` means the call succeeds).  The run is a
deterministic function of the environment.  Its observable behaviour is a
state `St`: the list of console prints, the ordered trace of filesystem
events (`mkdirs`, `move`, `writeLog`), the accumulated log entries and the
moved-file counter.  Python exceptions are modelled by `Except`: an error
value carries the state at the raise point together with the exception, and
the `try/except` chain at the bottom of `find_and_move_untracked_files`
becomes the final `match` that turns every error into a normal return.

Path arithmetic (`os.path.join`, `os.path.dirname`, `str.strip`,
`str.splitlines`) is modelled on the POSIX flavour, with `\n` as the sole
line separator and ASCII whitespace for stripping, which covers every string
the program manipulates.
-/

namespace Arc

/-- Whitespace characters stripped by Python `str.strip()` that occur in
the strings this program manipulates. -/
def isSpaceChar (c : Char) : Bool :=
  c = ' ' || c = '\t' || c = '\n' || c = '\r'

/-- Python `str.strip()`: remove leading and trailing whitespace. -/
def pyStrip (s : String) : String :=
  String.mk (((s.toList.dropWhile isSpaceChar).reverse.dropWhile isSpaceChar).reverse)

/-- POSIX `os.path.join` with two arguments, as in `posixpath.join`:
an absolute second component replaces the first; otherwise the components
are joined with a single `/` unless the first is empty or ends in `/`. -/
def pyJoin (a b : String) : String :=
  if b.toList.head? = some '/' then b
  else if a.toList = [] ∨ a.toList.getLast? = some '/' then a ++ b
  else a ++ "/" ++ b

/-- POSIX `os.path.dirname`: everything up to the last `/`, with trailing
slashes stripped unless the head consists only of slashes. -/
def pyDirname (p : String) : String :=
  let head := (p.toList.reverse.dropWhile (fun c => c ≠ '/')).reverse
  if head.all (fun c => c = '/') then String.mk head
  else String.mk ((head.reverse.dropWhile (fun c => c = '/')).reverse)

/-- Split a character list on a separator character; a list with `n`
occurrences of the separator yields `n + 1` groups. -/
def splitOnChar (sep : Char) : List Char → List (List Char)
  | [] => [[]]
  | c :: cs =>
    match splitOnChar sep cs with
    | [] => [[]]
    | g :: gs => if c = sep then [] :: g :: gs else (c :: g) :: gs

/-- Python `str.splitlines` restricted to `\n` separators (the only
separator appearing in `git ls-files` output): the empty string yields no
lines, otherwise split on `\n`. -/
def pySplitlines (s : String) : List String :=
  if s.toList = [] then [] else (splitOnChar '\n' s.toList).map String.mk

/-- Python `'\n'.join(xs)`. -/
def joinLines : List String → String
  | [] => ""
  | [x] => x
  | x :: y :: rest => x ++ "\n" ++ joinLines (y :: rest)

/-- Result of a `subprocess.run(..., check=True)` invocation of git:
either success (carrying captured stdout where relevant), a
`CalledProcessError` (non-zero exit, carrying `e.cmd` rendered as a string
and `e.stderr`), or a `FileNotFoundError` (git executable missing). -/
inductive GitResult (α : Type) where
  | ok (a : α)
  | calledProcessError (cmd : String) (stderr : String)
  | fileNotFound
  deriving DecidableEq, Repr

/-- The environment a run executes against.  Failure-injection fields
return `some msg` when the corresponding OS call raises an exception whose
string rendering is `msg`, and `none` when it succeeds. -/
structure Env where
  /-- Python `datetime.datetime.now().strftime("%Y-%m-%d_%H%M%S")` at startup. -/
  timestamp : String
  /-- the second `datetime.datetime.now().strftime("%Y-%m-%d %H:%M:%S")`,
  used in the log header. -/
  timestamp2 : String
  /-- Python `os.path.abspath(root_dir)`. -/
  abspathRoot : String
  /-- outcome of `git rev-parse --is-inside-work-tree`. -/
  revParse : GitResult Unit
  /-- outcome of `git ls-files --others --exclude-standard --full-name`;
  on success carries the captured stdout. -/
  lsFiles : GitResult String
  /-- Python `os.path.isfile`, queried on the joined path at filter time. -/
  isfile : String → Bool
  /-- failure injection for `os.makedirs(path, exist_ok=True)`, keyed by
  the directory path passed in. -/
  makedirsError : String → Option String
  /-- failure injection for `shutil.move(source, target)`, keyed by the
  source path. -/
  moveError : String → Option String
  /-- failure injection for opening/writing the log file. -/
  logWriteError : Option String

/-- One observable filesystem mutation.  A `mkdirs d` event is a successful
`os.makedirs(d, exist_ok=True)`, which creates `d` and every missing
ancestor directory of `d`.  A `move s t` event is a successful
`shutil.move(s, t)`.  A `writeLog p c` event is a successful write of
content `c` to the log file at path `p`. -/
inductive Ev where
  | mkdirs (dir : String)
  | move (src : String) (dst : String)
  | writeLog (path : String) (content : String)
  deriving DecidableEq, Repr

/-- The observable state accumulated by a run: console prints in order,
filesystem events in order, the `log_entries` list, and
`files_moved_count`. -/
structure St where
  console : List String
  events : List Ev
  logEntries : List String
  filesMovedCount : Nat
  deriving DecidableEq, Repr

def St.init : St := ⟨[], [], [], 0⟩

/-- The (source, destination) pairs of the `move` events of an event
list, in order. -/
def movedIn (evs : List Ev) : List (String × String) :=
  evs.filterMap fun e =>
    match e with
    | Ev.move s d => some (s, d)
    | _ => none

/-- Successful moves recorded in a state, as (source, destination) pairs,
in order. -/
def St.moved (st : St) : List (String × String) :=
  movedIn st.events

/-- Python exceptions that can escape to `find_and_move_untracked_files`'s
own `except` clauses. -/
inductive PyExc where
  | calledProcess (cmd : String) (stderr : String)
  | fileNotFound
  | generic (msg : String)
  deriving DecidableEq, Repr

/-- The filtered list of untracked files (step 2 of the script):
`untracked_result.stdout.strip().splitlines()` filtered by
`os.path.isfile(os.path.join(root_dir, f))`. -/
def untrackedOf (env : Env) (root_dir : String) (stdout : String) : List String :=
  (pySplitlines (pyStrip stdout)).filter fun f => env.isfile (pyJoin root_dir f)

/-- The folder name, `cleanup_untracked_` followed by the timestamp. -/
def cleanup_folder (env : Env) : String :=
  "cleanup_untracked_" ++ env.timestamp

/-- The path `os.path.join(root_dir, cleanup_folder)`. -/
def cleanup_path (env : Env) (root_dir : String) : String :=
  pyJoin root_dir (cleanup_folder env)

/-- The path `os.path.join(cleanup_path, "cleanup_log.txt")`. -/
def log_file_path (env : Env) (root_dir : String) : String :=
  pyJoin (cleanup_path env root_dir) "cleanup_log.txt"

/-- The six `log_entries.append` calls made before the move loop. -/
def headerEntries (env : Env) (cleanup_folder : String) (n : Nat) : List String :=
  ["--- Git Untracked File Cleanup Log ---",
   "Date/Time of Execution: " ++ env.timestamp2,
   "Source Directory: " ++ env.abspathRoot,
   "Destination Directory: " ++ cleanup_folder,
   "Total Files Found: " ++ toString n ++ "\n",
   "Files Moved (Original Path -> Cleanup Path):\n"]

/-- The body of one iteration of the move loop.  `os.makedirs(target_dir)`
sits OUTSIDE the inner `try`, so its failure raises past the loop (the
error carries the state at the raise point); `shutil.move` sits inside the
inner `try`, so its failure is converted into an ERROR log entry and the
iteration completes normally. -/
def processFile (env : Env) (root_dir cleanup_path : String) (st : St)
    (relative_path : String) : Except (St × PyExc) St :=
  let source_path := pyJoin root_dir relative_path
  let target_path := pyJoin cleanup_path relative_path
  let target_dir := pyDirname target_path
  match env.makedirsError target_dir with
  | some msg => Except.error (st, PyExc.generic msg)
  | none =>
    let st1 : St := { st with events := st.events ++ [Ev.mkdirs target_dir] }
    match env.moveError source_path with
    | none =>
      let log_line := "  MOVED: " ++ relative_path
      Except.ok { st1 with
        events := st1.events ++ [Ev.move source_path target_path],
        logEntries := st1.logEntries ++ [log_line],
        filesMovedCount := st1.filesMovedCount + 1,
        console := st1.console ++ ["  " ++ log_line] }
    | some e =>
      let error_line := "  ERROR: " ++ relative_path ++ " - Failed to move. Reason: " ++ e
      Except.ok { st1 with
        logEntries := st1.logEntries ++ [error_line],
        console := st1.console ++ [error_line] }

/-- The `for relative_path in untracked_files:` loop. -/
def loopFiles (env : Env) (root_dir cleanup_path : String) (st : St) :
    List String → Except (St × PyExc) St
  | [] => Except.ok st
  | p :: rest =>
    match processFile env root_dir cleanup_path st p with
    | Except.error e => Except.error e
    | Except.ok st' => loopFiles env root_dir cleanup_path st' rest

/-- Steps after the move loop: the two footer `log_entries.append` calls,
the guarded log-file write (step 5) and the two final completion prints. -/
def finishRun (env : Env) (root_dir : String) (st5 : St) : St :=
  let st6 : St := { st5 with logEntries := st5.logEntries ++
    ["\nTotal Files Successfully Moved: " ++ toString st5.filesMovedCount,
     "--- End of Log ---"] }
  let st7 : St :=
    match env.logWriteError with
    | none => { st6 with
        events := st6.events ++
          [Ev.writeLog (log_file_path env root_dir) (joinLines st6.logEntries)],
        console := st6.console ++
          ["\nSuccessfully generated log file: cleanup_log.txt inside " ++ cleanup_folder env] }
    | some e => { st6 with console := st6.console ++
        ["\nFATAL ERROR: Could not write log file to " ++ log_file_path env root_dir ++
         ". Reason: " ++ e] }
  { st7 with console := st7.console ++
    ["\nCleanup complete!",
     "All untracked, non-ignored files have been moved to: " ++ cleanup_folder env] }

/-- The console output accumulated before the move loop starts, in a run
that reaches the loop with `n` untracked files. -/
def preLoopConsole (env : Env) (root_dir : String) (n : Nat) : List String :=
  ["Cleanup folder will be: " ++ cleanup_path env root_dir,
   "-> Finding untracked, non-ignored files...",
   "Found " ++ toString n ++ " untracked files that are not ignored.",
   "Created primary cleanup directory: " ++ cleanup_folder env,
   "-> Moving files and recreating structure..."]

/-- The state just before the move loop starts, in a run that reaches the
loop with `n` untracked files. -/
def preLoopSt (env : Env) (root_dir : String) (n : Nat) : St :=
  { console := preLoopConsole env root_dir n,
    events := [Ev.mkdirs (cleanup_path env root_dir)],
    logEntries := headerEntries env (cleanup_folder env) n,
    filesMovedCount := 0 }

/-- The body of the outer `try` of `find_and_move_untracked_files`,
steps 1-5 of the script in order.  An `Except.error` is an exception
propagating out of the `try` body, paired with the state already
accumulated when it was raised. -/
def runBody (env : Env) (root_dir : String) : Except (St × PyExc) St :=
  let st0 : St := { St.init with
    console := ["Cleanup folder will be: " ++ cleanup_path env root_dir] }
  match env.revParse with
  | GitResult.calledProcessError cmd stderr => Except.error (st0, PyExc.calledProcess cmd stderr)
  | GitResult.fileNotFound => Except.error (st0, PyExc.fileNotFound)
  | GitResult.ok _ =>
    let st1 : St := { st0 with console := st0.console ++ ["-> Finding untracked, non-ignored files..."] }
    match env.lsFiles with
    | GitResult.calledProcessError cmd stderr => Except.error (st1, PyExc.calledProcess cmd stderr)
    | GitResult.fileNotFound => Except.error (st1, PyExc.fileNotFound)
    | GitResult.ok stdout =>
      let untracked_files := untrackedOf env root_dir stdout
      if untracked_files.isEmpty then
        Except.ok { st1 with console := st1.console ++
          ["No untracked and non-ignored files found to clean up."] }
      else
        let st2 : St := { st1 with console := st1.console ++
          ["Found " ++ toString untracked_files.length ++ " untracked files that are not ignored."] }
        match env.makedirsError (cleanup_path env root_dir) with
        | some msg => Except.error (st2, PyExc.generic msg)
        | none =>
          match loopFiles env root_dir (cleanup_path env root_dir)
              (preLoopSt env root_dir untracked_files.length) untracked_files with
          | Except.error e => Except.error e
          | Except.ok st5 => Except.ok (finishRun env root_dir st5)

/-- Function `find_and_move_untracked_files`: the outer `try` body followed by the
three `except` clauses.  Every exception escaping the body is converted
into console output and a normal return, so the function is total on `St`. -/
def find_and_move_untracked_files (env : Env) (root_dir : String) : St :=
  match runBody env root_dir with
  | Except.ok st => st
  | Except.error (st, PyExc.calledProcess cmd stderr) =>
    { st with console := st.console ++
        ["Error executing git command. Ensure you are in a Git repository and have Git installed. Details: " ++ cmd,
         "Stderr: " ++ pyStrip stderr] }
  | Except.error (st, PyExc.fileNotFound) =>
    { st with console := st.console ++
        ["Error: The 'git' command was not found. Please ensure Git is installed and in your system's PATH."] }
  | Except.error (st, PyExc.generic msg) =>
    { st with console := st.console ++ ["An unexpected error occurred: " ++ msg] }

/-- Observable effect of the command-line dispatch in `src/arc/__main__.py`. -/
inductive MainEffect where
  | sweepRun
  deriving DecidableEq, Repr

/-- The dispatch in `main()`: given the parsed positional `command`
argument, run the sweep when it equals "sweep", otherwise do nothing
(no effect, no output). -/
def mainDispatch (command : String) : List MainEffect :=
  if command = "sweep" then [MainEffect.sweepRun] else []

/-! ### Characterisation of one loop iteration -/

/-- Whether `shutil.move` succeeds for relative path `p`. -/
def moveOk (env : Env) (root_dir p : String) : Bool :=
  (env.moveError (pyJoin root_dir p)).isNone

/-- The log entry the loop records for relative path `p`. -/
def logEntryFor (env : Env) (root_dir p : String) : String :=
  match env.moveError (pyJoin root_dir p) with
  | none => "  MOVED: " ++ p
  | some e => "  ERROR: " ++ p ++ " - Failed to move. Reason: " ++ e

/-- The console line the loop prints for relative path `p`. -/
def consoleLineFor (env : Env) (root_dir p : String) : String :=
  match env.moveError (pyJoin root_dir p) with
  | none => "  " ++ ("  MOVED: " ++ p)
  | some e => "  ERROR: " ++ p ++ " - Failed to move. Reason: " ++ e

/-- The filesystem events one loop iteration performs for relative path
`p`, when its `makedirs` call succeeds. -/
def evsFor (env : Env) (root_dir cp p : String) : List Ev :=
  Ev.mkdirs (pyDirname (pyJoin cp p)) ::
    (match env.moveError (pyJoin root_dir p) with
     | none => [Ev.move (pyJoin root_dir p) (pyJoin cp p)]
     | some _ => [])

/-- The concatenated events of the loop iterations for a file list. -/
def evsForList (env : Env) (root_dir cp : String) : List String → List Ev
  | [] => []
  | p :: rest => evsFor env root_dir cp p ++ evsForList env root_dir cp rest

/-- The pure state transformer of one loop iteration whose `makedirs`
call succeeds. -/
def stepFile (env : Env) (root_dir cp : String) (st : St) (p : String) : St :=
  { console := st.console ++ [consoleLineFor env root_dir p],
    events := st.events ++ evsFor env root_dir cp p,
    logEntries := st.logEntries ++ [logEntryFor env root_dir p],
    filesMovedCount := st.filesMovedCount + (if moveOk env root_dir p then 1 else 0) }

lemma processFile_ok (env : Env) (root_dir cp : String) (st : St) (p : String)
    (h : env.makedirsError (pyDirname (pyJoin cp p)) = none) :
    processFile env root_dir cp st p = Except.ok (stepFile env root_dir cp st p) := by
  cases hm : env.moveError (pyJoin root_dir p) <;>
    simp [processFile, stepFile, evsFor, logEntryFor, consoleLineFor, moveOk, h, hm,
      List.append_assoc]

lemma processFile_err (env : Env) (root_dir cp : String) (st : St) (p msg : String)
    (h : env.makedirsError (pyDirname (pyJoin cp p)) = some msg) :
    processFile env root_dir cp st p = Except.error (st, PyExc.generic msg) := by
  simp only [processFile, h]

lemma loopFiles_ok (env : Env) (root_dir cp : String) :
    ∀ (files : List String) (st : St),
      (∀ p ∈ files, env.makedirsError (pyDirname (pyJoin cp p)) = none) →
      loopFiles env root_dir cp st files =
        Except.ok (files.foldl (stepFile env root_dir cp) st) := by
  intro files
  induction files with
  | nil => intro st _; rfl
  | cons p rest ih =>
    intro st h
    rw [loopFiles, processFile_ok env root_dir cp st p (h p (by simp))]
    simpa using ih _ (fun q hq => h q (by simp [hq]))

lemma loopFiles_err (env : Env) (root_dir cp bad msg : String) (post : List String)
    (hbad : env.makedirsError (pyDirname (pyJoin cp bad)) = some msg) :
    ∀ (pre : List String) (st : St),
      (∀ p ∈ pre, env.makedirsError (pyDirname (pyJoin cp p)) = none) →
      loopFiles env root_dir cp st (pre ++ bad :: post) =
        Except.error (pre.foldl (stepFile env root_dir cp) st, PyExc.generic msg) := by
  intro pre
  induction pre with
  | nil =>
    intro st _
    rw [List.nil_append, loopFiles, processFile_err env root_dir cp st bad msg hbad]
    rfl
  | cons p rest ih =>
    intro st h
    rw [List.cons_append, loopFiles, processFile_ok env root_dir cp st p (h p (by simp))]
    simpa using ih _ (fun q hq => h q (by simp [hq]))

lemma foldl_stepFile_console (env : Env) (root_dir cp : String) :
    ∀ (files : List String) (st : St),
      (files.foldl (stepFile env root_dir cp) st).console =
        st.console ++ files.map (consoleLineFor env root_dir) := by
  intro files
  induction files with
  | nil => intro st; simp
  | cons p rest ih => intro st; simp [ih, stepFile]

lemma foldl_stepFile_logEntries (env : Env) (root_dir cp : String) :
    ∀ (files : List String) (st : St),
      (files.foldl (stepFile env root_dir cp) st).logEntries =
        st.logEntries ++ files.map (logEntryFor env root_dir) := by
  intro files
  induction files with
  | nil => intro st; simp
  | cons p rest ih => intro st; simp [ih, stepFile]

lemma foldl_stepFile_events (env : Env) (root_dir cp : String) :
    ∀ (files : List String) (st : St),
      (files.foldl (stepFile env root_dir cp) st).events =
        st.events ++ evsForList env root_dir cp files := by
  intro files
  induction files with
  | nil => intro st; simp [evsForList]
  | cons p rest ih => intro st; simp [ih, stepFile, evsForList]

lemma foldl_stepFile_count (env : Env) (root_dir cp : String) :
    ∀ (files : List String) (st : St),
      (files.foldl (stepFile env root_dir cp) st).filesMovedCount =
        st.filesMovedCount + (files.filter (moveOk env root_dir)).length := by
  intro files
  induction files with
  | nil => intro st; simp
  | cons p rest ih =>
    intro st
    by_cases hp : moveOk env root_dir p = true
    · simp [ih, stepFile, hp, List.filter_cons]
      omega
    · simp [ih, stepFile, hp, List.filter_cons]

lemma movedIn_append (a b : List Ev) : movedIn (a ++ b) = movedIn a ++ movedIn b := by
  simp [movedIn]

lemma movedIn_mkdirs_single (d : String) : movedIn [Ev.mkdirs d] = [] := rfl

lemma movedIn_mkdirs_cons (d : String) (l : List Ev) :
    movedIn (Ev.mkdirs d :: l) = movedIn l := rfl

lemma movedIn_writeLog_single (p c : String) : movedIn [Ev.writeLog p c] = [] := rfl

lemma movedIn_evsForList (env : Env) (root_dir cp : String) :
    ∀ files : List String,
      movedIn (evsForList env root_dir cp files) =
        (files.filter (moveOk env root_dir)).map
          (fun p => (pyJoin root_dir p, pyJoin cp p)) := by
  intro files
  induction files with
  | nil => simp [evsForList, movedIn]
  | cons p rest ih =>
    cases hm : env.moveError (pyJoin root_dir p) <;>
      simpa [evsForList, movedIn_append, evsFor, movedIn, hm, moveOk, List.filter_cons]
        using ih

lemma writeLog_not_in_evsForList (env : Env) (root_dir cp : String) :
    ∀ (files : List String) (pth ct : String),
      Ev.writeLog pth ct ∉ evsForList env root_dir cp files := by
  intro files
  induction files with
  | nil => intro pth ct; simp [evsForList]
  | cons p rest ih =>
    intro pth ct
    cases hm : env.moveError (pyJoin root_dir p) <;>
      simp [evsForList, evsFor, hm] <;> exact ih pth ct

/-! ### Structure preservation invariant on event traces -/

/-- The state carried by a run outcome: the final state on success, the
state at the raise point on an escaped exception. -/
def resultSt : Except (St × PyExc) St → St
  | Except.ok st => st
  | Except.error (st, _) => st

/-- Every `move` event targets `<cleanup_path>/<relative_path>` for the
relative path whose source it moved, and is preceded by a `mkdirs` of the
destination's parent directory (which creates every missing intermediate
directory of the destination path). -/
def GoodEvents (root_dir cp : String) (evs : List Ev) : Prop :=
  ∀ (i : Nat) (s t : String), evs[i]? = some (Ev.move s t) →
    (∃ p, s = pyJoin root_dir p ∧ t = pyJoin cp p) ∧
    ∃ j, j < i ∧ evs[j]? = some (Ev.mkdirs (pyDirname t))

lemma goodEvents_nil (root_dir cp : String) : GoodEvents root_dir cp [] := by
  unfold GoodEvents
  intro i s t hi
  simp at hi

lemma goodEvents_append_nonmove {root_dir cp : String} {evs : List Ev}
    (h : GoodEvents root_dir cp evs) (e : Ev) (he : ∀ s t, e ≠ Ev.move s t) :
    GoodEvents root_dir cp (evs ++ [e]) := by
  unfold GoodEvents at h ⊢
  intro i s t hi
  by_cases hlen : i < evs.length
  · rw [List.getElem?_append_left hlen] at hi
    obtain ⟨hex, j, hj, hjget⟩ := h i s t hi
    exact ⟨hex, j, hj, by rw [List.getElem?_append_left (lt_trans hj hlen)]; exact hjget⟩
  · push_neg at hlen
    rw [List.getElem?_append_right hlen] at hi
    cases h0 : i - evs.length with
    | zero =>
      rw [h0] at hi
      simp at hi
      exact absurd hi (he s t)
    | succ k =>
      rw [h0] at hi
      simp at hi

lemma goodEvents_append_move {root_dir cp : String} {evs : List Ev}
    (h : GoodEvents root_dir cp evs) (p : String) :
    GoodEvents root_dir cp
      (evs ++ [Ev.mkdirs (pyDirname (pyJoin cp p)), Ev.move (pyJoin root_dir p) (pyJoin cp p)]) := by
  unfold GoodEvents at h ⊢
  intro i s t hi
  by_cases hlen : i < evs.length
  · rw [List.getElem?_append_left hlen] at hi
    obtain ⟨hex, j, hj, hjget⟩ := h i s t hi
    exact ⟨hex, j, hj, by rw [List.getElem?_append_left (lt_trans hj hlen)]; exact hjget⟩
  · push_neg at hlen
    rw [List.getElem?_append_right hlen] at hi
    cases h0 : i - evs.length with
    | zero =>
      rw [h0] at hi
      simp at hi
    | succ k =>
      cases k with
      | zero =>
        rw [h0] at hi
        simp at hi
        obtain ⟨hs, ht⟩ := hi
        refine ⟨⟨p, hs.symm, ht.symm⟩, evs.length, ?_, ?_⟩
        · omega
        · rw [List.getElem?_append_right (le_refl evs.length)]
          simp [ht]
      | succ m =>
        rw [h0] at hi
        simp at hi

lemma goodEvents_evsFor {env : Env} {root_dir cp : String} {evs : List Ev}
    (h : GoodEvents root_dir cp evs) (p : String) :
    GoodEvents root_dir cp (evs ++ evsFor env root_dir cp p) := by
  cases hm : env.moveError (pyJoin root_dir p) with
  | none =>
    have := goodEvents_append_move h p
    simpa [evsFor, hm] using this
  | some e =>
    have := goodEvents_append_nonmove h (Ev.mkdirs (pyDirname (pyJoin cp p)))
      (by intro s t; simp)
    simpa [evsFor, hm] using this

lemma loopFiles_good (env : Env) (root_dir cp : String) :
    ∀ (files : List String) (st : St), GoodEvents root_dir cp st.events →
      GoodEvents root_dir cp (resultSt (loopFiles env root_dir cp st files)).events := by
  intro files
  induction files with
  | nil => intro st h; exact h
  | cons p rest ih =>
    intro st h
    cases hmk : env.makedirsError (pyDirname (pyJoin cp p)) with
    | some msg =>
      rw [loopFiles, processFile_err env root_dir cp st p msg hmk]
      exact h
    | none =>
      rw [loopFiles, processFile_ok env root_dir cp st p hmk]
      exact ih (stepFile env root_dir cp st p) (goodEvents_evsFor h p)

lemma goodEvents_single_mkdirs (root_dir cp d : String) :
    GoodEvents root_dir cp [Ev.mkdirs d] := by
  unfold GoodEvents
  intro i s t hi
  rcases i with _ | i <;> simp at hi

/-! ### Run-level unfolding lemmas -/

lemma find_of_ok {env : Env} {root_dir : String} {st : St}
    (h : runBody env root_dir = Except.ok st) :
    find_and_move_untracked_files env root_dir = st := by
  unfold find_and_move_untracked_files
  rw [h]

lemma find_of_generic {env : Env} {root_dir msg : String} {st : St}
    (h : runBody env root_dir = Except.error (st, PyExc.generic msg)) :
    find_and_move_untracked_files env root_dir =
      { st with console := st.console ++ ["An unexpected error occurred: " ++ msg] } := by
  unfold find_and_move_untracked_files
  rw [h]

lemma runBody_reach (env : Env) (root_dir stdout : String)
    (h1 : env.revParse = GitResult.ok ()) (h2 : env.lsFiles = GitResult.ok stdout)
    (hne : (untrackedOf env root_dir stdout).isEmpty = false)
    (hmk : env.makedirsError (cleanup_path env root_dir) = none) :
    runBody env root_dir =
      match loopFiles env root_dir (cleanup_path env root_dir)
          (preLoopSt env root_dir (untrackedOf env root_dir stdout).length)
          (untrackedOf env root_dir stdout) with
      | Except.error e => Except.error e
      | Except.ok st5 => Except.ok (finishRun env root_dir st5) := by
  simp only [runBody, h1, h2, hne, Bool.false_eq_true, if_false, hmk]

lemma runBody_good (env : Env) (root_dir : String) :
    GoodEvents root_dir (cleanup_path env root_dir)
      ((resultSt (runBody env root_dir)).events) := by
  cases hrev : env.revParse with
  | calledProcessError cmd stderr =>
    simp only [runBody, hrev]
    exact goodEvents_nil _ _
  | fileNotFound =>
    simp only [runBody, hrev]
    exact goodEvents_nil _ _
  | ok u =>
    cases hls : env.lsFiles with
    | calledProcessError cmd stderr =>
      simp only [runBody, hrev, hls]
      exact goodEvents_nil _ _
    | fileNotFound =>
      simp only [runBody, hrev, hls]
      exact goodEvents_nil _ _
    | ok stdout =>
      by_cases hemp : (untrackedOf env root_dir stdout).isEmpty = true
      · simp only [runBody, hrev, hls, if_pos hemp]
        exact goodEvents_nil _ _
      · cases hmk : env.makedirsError (cleanup_path env root_dir) with
        | some msg =>
          simp only [runBody, hrev, hls, if_neg hemp, hmk]
          exact goodEvents_nil _ _
        | none =>
          simp only [runBody, hrev, hls, if_neg hemp, hmk]
          have hg := loopFiles_good env root_dir (cleanup_path env root_dir)
            (untrackedOf env root_dir stdout)
            (preLoopSt env root_dir (untrackedOf env root_dir stdout).length)
            (goodEvents_single_mkdirs _ _ _)
          cases hL : loopFiles env root_dir (cleanup_path env root_dir)
              (preLoopSt env root_dir (untrackedOf env root_dir stdout).length)
              (untrackedOf env root_dir stdout) with
          | error e =>
            rw [hL] at hg
            simp only [hL]
            exact hg
          | ok st5 =>
            rw [hL] at hg
            simp only [hL]
            unfold finishRun
            cases hlw : env.logWriteError with
            | none =>
              simp only [hlw]
              exact goodEvents_append_nonmove hg _ (by intro s t; simp)
            | some e =>
              simp only [hlw]
              exact hg

/-- Run shape on the fully successful path: the check and the enumeration
succeed, the filtered list is non-empty and every `makedirs` call
succeeds. -/
lemma find_success_shape (env : Env) (root_dir stdout : String)
    (h1 : env.revParse = GitResult.ok ()) (h2 : env.lsFiles = GitResult.ok stdout)
    (hne : (untrackedOf env root_dir stdout).isEmpty = false)
    (hmkc : env.makedirsError (cleanup_path env root_dir) = none)
    (hmk : ∀ p ∈ untrackedOf env root_dir stdout,
      env.makedirsError (pyDirname (pyJoin (cleanup_path env root_dir) p)) = none) :
    find_and_move_untracked_files env root_dir =
      finishRun env root_dir
        ((untrackedOf env root_dir stdout).foldl
          (stepFile env root_dir (cleanup_path env root_dir))
          (preLoopSt env root_dir (untrackedOf env root_dir stdout).length)) := by
  have hloop := loopFiles_ok env root_dir (cleanup_path env root_dir)
    (untrackedOf env root_dir stdout)
    (preLoopSt env root_dir (untrackedOf env root_dir stdout).length) hmk
  have hrB := runBody_reach env root_dir stdout h1 h2 hne hmkc
  rw [hloop] at hrB
  exact find_of_ok hrB

/-! ### Concrete environments used by the witness theorems -/

/-- A repository with two untracked files, where moving the second fails. -/
def envHappy : Env :=
  { timestamp := "2025-01-02_030405",
    timestamp2 := "2025-01-02 03:04:05",
    abspathRoot := "/repo",
    revParse := GitResult.ok (),
    lsFiles := GitResult.ok "a/b.txt\nc.txt\n",
    isfile := fun _ => true,
    makedirsError := fun _ => none,
    moveError := fun s => if s = "./c.txt" then some "Permission denied" else none,
    logWriteError := none }

/-- A directory that is not a git repository. -/
def envRepoFail : Env :=
  { envHappy with
    revParse := GitResult.calledProcessError
      "['git', 'rev-parse', '--is-inside-work-tree']"
      "fatal: not a git repository\n" }

/-- A clean tree: the enumeration returns no output. -/
def envEmptyTree : Env :=
  { envHappy with lsFiles := GitResult.ok "", isfile := fun _ => false }

/-- Same as `envHappy`, but writing the log file fails. -/
def envLogFail : Env :=
  { envHappy with logWriteError := some "No space left on device" }

/-- Two untracked files, where the per-file `makedirs` of the second
file's target subdirectory fails. -/
def envMkdirLoopFail : Env :=
  { envHappy with
    lsFiles := GitResult.ok "c.txt\na/b.txt\n",
    moveError := fun _ => none,
    makedirsError := fun d =>
      if d = "./cleanup_untracked_2025-01-02_030405/a" then some "Permission denied"
      else none }

/-- Same as `envHappy`, but creating the cleanup directory itself fails. -/
def envSetupFail : Env :=
  { envHappy with
    makedirsError := fun d =>
      if d = "./cleanup_untracked_2025-01-02_030405" then some "Read-only file system"
      else none }

/-- An enumeration output containing a whitespace-only line that names an
existing regular file (a file literally named by a single space). -/
def envBlank : Env :=
  { envHappy with
    lsFiles := GitResult.ok "a\n \nb",
    moveError := fun _ => none,
    isfile := fun s => s == "./a" || s == "./ " || s == "./b" }

/-! ### Claims -/

/-- Claim C1: every file successfully moved during a run, with relative
path `p`, has destination `<cleanup_path>/p` (the `os.path.join` of the
cleanup folder path and `p`), and an earlier event of the same run is a
successful `os.makedirs` of the destination's parent directory, which
creates every missing intermediate directory of the destination path. -/
theorem moved_files_mirror_structure (env : Env) (root_dir : String) :
    ∀ (i : Nat) (s t : String),
      (find_and_move_untracked_files env root_dir).events[i]? = some (Ev.move s t) →
      (∃ p, s = pyJoin root_dir p ∧ t = pyJoin (cleanup_path env root_dir) p) ∧
      ∃ j, j < i ∧ (find_and_move_untracked_files env root_dir).events[j]? =
        some (Ev.mkdirs (pyDirname t)) := by
  have hev : (find_and_move_untracked_files env root_dir).events =
      (resultSt (runBody env root_dir)).events := by
    unfold find_and_move_untracked_files
    cases hR : runBody env root_dir with
    | ok st => rfl
    | error e =>
      rcases e with ⟨st, exc⟩
      cases exc <;> rfl
  rw [hev]
  exact runBody_good env root_dir

theorem moved_files_mirror_structure_witness :
    ((find_and_move_untracked_files envHappy ".").events[2]? =
      some (Ev.move "./a/b.txt" "./cleanup_untracked_2025-01-02_030405/a/b.txt")) ∧
    ((∃ p, "./a/b.txt" = pyJoin "." p ∧
        "./cleanup_untracked_2025-01-02_030405/a/b.txt" = pyJoin (cleanup_path envHappy ".") p) ∧
     ∃ j, j < 2 ∧ (find_and_move_untracked_files envHappy ".").events[j]? =
        some (Ev.mkdirs (pyDirname "./cleanup_untracked_2025-01-02_030405/a/b.txt"))) :=
  ⟨by decide, moved_files_mirror_structure envHappy "." 2 _ _ (by decide)⟩

/-- Claim C2: when every per-file `makedirs` succeeds, the loop never
raises: a `shutil.move` failure is caught, recorded as an ERROR log entry,
and every file of the list gets exactly one entry (MOVED or ERROR), so the
batch is never aborted by a move failure. -/
theorem move_failure_isolated (env : Env) (root_dir cp : String) (st : St)
    (files : List String)
    (hmk : ∀ p ∈ files, env.makedirsError (pyDirname (pyJoin cp p)) = none) :
    (∃ st', loopFiles env root_dir cp st files = Except.ok st' ∧
      st'.logEntries = st.logEntries ++ files.map (logEntryFor env root_dir)) ∧
    (∀ p e, env.moveError (pyJoin root_dir p) = some e →
      logEntryFor env root_dir p =
        "  ERROR: " ++ p ++ " - Failed to move. Reason: " ++ e) := by
  refine ⟨⟨_, loopFiles_ok env root_dir cp files st hmk, ?_⟩, ?_⟩
  · exact foldl_stepFile_logEntries env root_dir cp files st
  · intro p e he
    simp [logEntryFor, he]

theorem move_failure_isolated_witness :
    (∀ p ∈ ["a/b.txt", "c.txt"],
      envHappy.makedirsError (pyDirname (pyJoin (cleanup_path envHappy ".") p)) = none) ∧
    ((∃ st', loopFiles envHappy "." (cleanup_path envHappy ".") St.init ["a/b.txt", "c.txt"] =
        Except.ok st' ∧
      st'.logEntries = St.init.logEntries ++
        (["a/b.txt", "c.txt"]).map (logEntryFor envHappy ".")) ∧
     (∀ p e, envHappy.moveError (pyJoin "." p) = some e →
      logEntryFor envHappy "." p =
        "  ERROR: " ++ p ++ " - Failed to move. Reason: " ++ e)) :=
  ⟨by decide,
   move_failure_isolated envHappy "." (cleanup_path envHappy ".") St.init
     ["a/b.txt", "c.txt"] (by decide)⟩

/-- Claim C3: when the repository check fails (non-zero exit or git not
found), the run aborts with a user-visible error before any filesystem
mutation: the event trace is empty (no directory created, no file moved)
and the console holds only the initial folder announcement and the error
report. -/
theorem repo_check_failure_aborts (env : Env) (root_dir cmd stderr : String) :
    (env.revParse = GitResult.calledProcessError cmd stderr →
      (find_and_move_untracked_files env root_dir).events = [] ∧
      (find_and_move_untracked_files env root_dir).console =
        ["Cleanup folder will be: " ++ cleanup_path env root_dir,
         "Error executing git command. Ensure you are in a Git repository and have Git installed. Details: " ++ cmd,
         "Stderr: " ++ pyStrip stderr]) ∧
    (env.revParse = GitResult.fileNotFound →
      (find_and_move_untracked_files env root_dir).events = [] ∧
      (find_and_move_untracked_files env root_dir).console =
        ["Cleanup folder will be: " ++ cleanup_path env root_dir,
         "Error: The 'git' command was not found. Please ensure Git is installed and in your system's PATH."]) := by
  constructor
  · intro h
    have hrB : runBody env root_dir = Except.error
        ({ St.init with console := ["Cleanup folder will be: " ++ cleanup_path env root_dir] },
         PyExc.calledProcess cmd stderr) := by
      simp only [runBody, h]
    unfold find_and_move_untracked_files
    rw [hrB]
    exact ⟨rfl, rfl⟩
  · intro h
    have hrB : runBody env root_dir = Except.error
        ({ St.init with console := ["Cleanup folder will be: " ++ cleanup_path env root_dir] },
         PyExc.fileNotFound) := by
      simp only [runBody, h]
    unfold find_and_move_untracked_files
    rw [hrB]
    exact ⟨rfl, rfl⟩

theorem repo_check_failure_aborts_witness :
    (envRepoFail.revParse = GitResult.calledProcessError
      "['git', 'rev-parse', '--is-inside-work-tree']" "fatal: not a git repository\n") ∧
    ((find_and_move_untracked_files envRepoFail ".").events = [] ∧
     (find_and_move_untracked_files envRepoFail ".").console =
      ["Cleanup folder will be: " ++ cleanup_path envRepoFail ".",
       "Error executing git command. Ensure you are in a Git repository and have Git installed. Details: " ++
         "['git', 'rev-parse', '--is-inside-work-tree']",
       "Stderr: " ++ pyStrip "fatal: not a git repository\n"]) :=
  ⟨rfl,
   (repo_check_failure_aborts envRepoFail "."
     "['git', 'rev-parse', '--is-inside-work-tree']" "fatal: not a git repository\n").1 rfl⟩

/-- Claim C4: when the filtered untracked list is empty, the run reports
that there is nothing to do and returns successfully, with an empty event
trace: no cleanup folder and no other directory is created. -/
theorem empty_untracked_no_op (env : Env) (root_dir stdout : String)
    (h1 : env.revParse = GitResult.ok ()) (h2 : env.lsFiles = GitResult.ok stdout)
    (hemp : untrackedOf env root_dir stdout = []) :
    ∃ st : St, runBody env root_dir = Except.ok st ∧
      find_and_move_untracked_files env root_dir = st ∧
      st.events = [] ∧
      st.console =
        ["Cleanup folder will be: " ++ cleanup_path env root_dir,
         "-> Finding untracked, non-ignored files...",
         "No untracked and non-ignored files found to clean up."] := by
  have hrB : runBody env root_dir = Except.ok
      { console :=
          ["Cleanup folder will be: " ++ cleanup_path env root_dir,
           "-> Finding untracked, non-ignored files...",
           "No untracked and non-ignored files found to clean up."],
        events := [], logEntries := [], filesMovedCount := 0 } := by
    simp only [runBody, h1, h2, hemp]
    rfl
  exact ⟨_, hrB, find_of_ok hrB, rfl, rfl⟩

theorem empty_untracked_no_op_witness :
    (envEmptyTree.revParse = GitResult.ok () ∧ envEmptyTree.lsFiles = GitResult.ok "" ∧
      untrackedOf envEmptyTree "." "" = []) ∧
    (∃ st : St, runBody envEmptyTree "." = Except.ok st ∧
      find_and_move_untracked_files envEmptyTree "." = st ∧
      st.events = [] ∧
      st.console =
        ["Cleanup folder will be: " ++ cleanup_path envEmptyTree ".",
         "-> Finding untracked, non-ignored files...",
         "No untracked and non-ignored files found to clean up."]) :=
  ⟨⟨rfl, rfl, by decide⟩,
   empty_untracked_no_op envEmptyTree "." "" rfl rfl (by decide)⟩

/-- Claim C5: when the run reaches the log write and writing the log file
fails, the failure is reported on the console, no log file is written,
the set of moved files is exactly what it would have been had the log
write succeeded (nothing is moved back), and the final completion summary
is still printed. -/
theorem log_write_failure_best_effort (env : Env) (root_dir stdout e : String)
    (h1 : env.revParse = GitResult.ok ()) (h2 : env.lsFiles = GitResult.ok stdout)
    (hne : (untrackedOf env root_dir stdout).isEmpty = false)
    (hmkc : env.makedirsError (cleanup_path env root_dir) = none)
    (hmk : ∀ p ∈ untrackedOf env root_dir stdout,
      env.makedirsError (pyDirname (pyJoin (cleanup_path env root_dir) p)) = none)
    (hlw : env.logWriteError = some e) :
    (∃ pre, (find_and_move_untracked_files env root_dir).console =
      pre ++
        ["\nFATAL ERROR: Could not write log file to " ++ log_file_path env root_dir ++
           ". Reason: " ++ e,
         "\nCleanup complete!",
         "All untracked, non-ignored files have been moved to: " ++ cleanup_folder env]) ∧
    (∀ pth c, Ev.writeLog pth c ∉ (find_and_move_untracked_files env root_dir).events) ∧
    (find_and_move_untracked_files env root_dir).moved =
      (find_and_move_untracked_files { env with logWriteError := none } root_dir).moved := by
  rw [find_success_shape env root_dir stdout h1 h2 hne hmkc hmk,
    find_success_shape { env with logWriteError := none } root_dir stdout h1 h2 hne hmkc hmk]
  refine ⟨⟨((untrackedOf env root_dir stdout).foldl
      (stepFile env root_dir (cleanup_path env root_dir))
      (preLoopSt env root_dir (untrackedOf env root_dir stdout).length)).console, ?_⟩, ?_, ?_⟩
  · simp [finishRun, hlw, List.append_assoc]
  · intro pth c hmem
    simp only [finishRun, hlw] at hmem
    rw [foldl_stepFile_events] at hmem
    simp [preLoopSt] at hmem
    exact writeLog_not_in_evsForList env root_dir (cleanup_path env root_dir) _ pth c hmem
  · simp [St.moved, finishRun, hlw, foldl_stepFile_events, preLoopSt, movedIn_append,
      movedIn_evsForList, movedIn_mkdirs_single, movedIn_writeLog_single, movedIn_mkdirs_cons,
      moveOk, cleanup_path, cleanup_folder, untrackedOf]

theorem log_write_failure_best_effort_witness :
    (envLogFail.revParse = GitResult.ok () ∧
     envLogFail.lsFiles = GitResult.ok "a/b.txt\nc.txt\n" ∧
     (untrackedOf envLogFail "." "a/b.txt\nc.txt\n").isEmpty = false ∧
     envLogFail.makedirsError (cleanup_path envLogFail ".") = none ∧
     (∀ p ∈ untrackedOf envLogFail "." "a/b.txt\nc.txt\n",
       envLogFail.makedirsError (pyDirname (pyJoin (cleanup_path envLogFail ".") p)) = none) ∧
     envLogFail.logWriteError = some "No space left on device") ∧
    ((∃ pre, (find_and_move_untracked_files envLogFail ".").console =
      pre ++
        ["\nFATAL ERROR: Could not write log file to " ++ log_file_path envLogFail "." ++
           ". Reason: " ++ "No space left on device",
         "\nCleanup complete!",
         "All untracked, non-ignored files have been moved to: " ++ cleanup_folder envLogFail]) ∧
    (∀ pth c, Ev.writeLog pth c ∉ (find_and_move_untracked_files envLogFail ".").events) ∧
    (find_and_move_untracked_files envLogFail ".").moved =
      (find_and_move_untracked_files { envLogFail with logWriteError := none } ".").moved) :=
  ⟨⟨rfl, rfl, by decide, by decide, by decide, rfl⟩,
   log_write_failure_best_effort envLogFail "." "a/b.txt\nc.txt\n" "No space left on device"
     rfl rfl (by decide) (by decide) (by decide) rfl⟩

/-- Claim C6: the command-line dispatch does nothing for any parsed
positional command other than "sweep": no sweep run is triggered, no
error is reported and no output is produced. -/
theorem unknown_command_no_op (c : String) (h : c ≠ "sweep") :
    mainDispatch c = [] := by
  simp [mainDispatch, h]

theorem unknown_command_no_op_witness :
    ("status" ≠ "sweep") ∧ mainDispatch "status" = [] :=
  ⟨by decide, unknown_command_no_op "status" (by decide)⟩

/-- The processed-list computation as the spec's words describe it
(claim C7): split the stripped output into lines, discard empty or blank
lines as a separate step, then keep the entries that resolve to a regular
file.  Written for comparison with `untrackedOf`, which follows the
code. -/
def specProcessedList (env : Env) (root_dir stdout : String) : List String :=
  ((pySplitlines (pyStrip stdout)).filter (fun f => !(pyStrip f == ""))).filter
    (fun f => env.isfile (pyJoin root_dir f))

/-- Counterexample to claim C7 as stated: for the enumeration output
"a\n \nb" in an environment where a regular file literally named " "
(one space) exists under the root, the code's processed list keeps the
blank line " " (because `os.path.isfile` resolves it), whereas the claim
says blank lines are discarded; the run then actually moves that file. -/
theorem blank_line_kept_counterexample :
    untrackedOf envBlank "." "a\n \nb" = ["a", " ", "b"] ∧
    pyStrip " " = "" ∧
    specProcessedList envBlank "." "a\n \nb" = ["a", "b"] ∧
    (find_and_move_untracked_files envBlank ".").moved =
      [("./a", "./cleanup_untracked_2025-01-02_030405/a"),
       ("./ ", "./cleanup_untracked_2025-01-02_030405/ "),
       ("./b", "./cleanup_untracked_2025-01-02_030405/b")] := by
  refine ⟨by decide, by decide, by decide, by decide⟩

/-- Claim C7 as amended: the enumeration output is stripped of leading
and trailing whitespace and split into lines, and an entry is kept in the
processed list exactly when it currently resolves to a regular file under
the joined path (directories and vanished entries are excluded); there is
no separate blank-line filter, so a whitespace-only line naming an
existing regular file is kept. -/
theorem untracked_filter_characterisation (env : Env) (root_dir stdout f : String) :
    f ∈ untrackedOf env root_dir stdout ↔
      f ∈ pySplitlines (pyStrip stdout) ∧ env.isfile (pyJoin root_dir f) = true := by
  simp [untrackedOf, List.mem_filter]

/-- Claim C8: a run that reaches log assembly produces a log whose header
carries the execution timestamp, the absolute source directory, the
destination folder name and the total file count, followed by exactly one
entry per processed file — "  MOVED: p" or "  ERROR: p - Failed to move.
Reason: e" — and a footer with the count of files actually moved. -/
theorem log_assembly_shape (env : Env) (root_dir stdout : String)
    (h1 : env.revParse = GitResult.ok ()) (h2 : env.lsFiles = GitResult.ok stdout)
    (hne : (untrackedOf env root_dir stdout).isEmpty = false)
    (hmkc : env.makedirsError (cleanup_path env root_dir) = none)
    (hmk : ∀ p ∈ untrackedOf env root_dir stdout,
      env.makedirsError (pyDirname (pyJoin (cleanup_path env root_dir) p)) = none) :
    (find_and_move_untracked_files env root_dir).logEntries =
      headerEntries env (cleanup_folder env) (untrackedOf env root_dir stdout).length ++
      (untrackedOf env root_dir stdout).map (logEntryFor env root_dir) ++
      ["\nTotal Files Successfully Moved: " ++
         toString (((untrackedOf env root_dir stdout).filter (moveOk env root_dir)).length),
       "--- End of Log ---"] := by
  rw [find_success_shape env root_dir stdout h1 h2 hne hmkc hmk]
  cases hlw : env.logWriteError with
  | none =>
    simp only [finishRun, hlw]
    rw [foldl_stepFile_logEntries, foldl_stepFile_count]
    simp [preLoopSt, List.append_assoc]
  | some e =>
    simp only [finishRun, hlw]
    rw [foldl_stepFile_logEntries, foldl_stepFile_count]
    simp [preLoopSt, List.append_assoc]

theorem log_assembly_shape_witness :
    (envHappy.revParse = GitResult.ok () ∧
     envHappy.lsFiles = GitResult.ok "a/b.txt\nc.txt\n" ∧
     (untrackedOf envHappy "." "a/b.txt\nc.txt\n").isEmpty = false ∧
     envHappy.makedirsError (cleanup_path envHappy ".") = none ∧
     (∀ p ∈ untrackedOf envHappy "." "a/b.txt\nc.txt\n",
       envHappy.makedirsError (pyDirname (pyJoin (cleanup_path envHappy ".") p)) = none)) ∧
    (find_and_move_untracked_files envHappy ".").logEntries =
      headerEntries envHappy (cleanup_folder envHappy)
          (untrackedOf envHappy "." "a/b.txt\nc.txt\n").length ++
      (untrackedOf envHappy "." "a/b.txt\nc.txt\n").map (logEntryFor envHappy ".") ++
      ["\nTotal Files Successfully Moved: " ++
         toString (((untrackedOf envHappy "." "a/b.txt\nc.txt\n").filter
            (moveOk envHappy ".")).length),
       "--- End of Log ---"] :=
  ⟨⟨rfl, rfl, by decide, by decide, by decide⟩,
   log_assembly_shape envHappy "." "a/b.txt\nc.txt\n" rfl rfl (by decide) (by decide)
     (by decide)⟩

/-- Claim C9: every exception escaping the `try` body that the two git
specific handlers do not catch is caught by the top-level generic
handler, reported with its message on the console, and the function
returns normally with the state accumulated at the raise point (it never
propagates an exception: `find_and_move_untracked_files` is total). -/
theorem unexpected_error_caught (env : Env) (root_dir msg : String) (st0 : St)
    (h : runBody env root_dir = Except.error (st0, PyExc.generic msg)) :
    find_and_move_untracked_files env root_dir =
      { st0 with console := st0.console ++ ["An unexpected error occurred: " ++ msg] } :=
  find_of_generic h

theorem unexpected_error_caught_witness :
    (runBody envSetupFail "." = Except.error
      ({ console :=
          ["Cleanup folder will be: ./cleanup_untracked_2025-01-02_030405",
           "-> Finding untracked, non-ignored files...",
           "Found 2 untracked files that are not ignored."],
         events := [], logEntries := [], filesMovedCount := 0 },
       PyExc.generic "Read-only file system")) ∧
    find_and_move_untracked_files envSetupFail "." =
      { console :=
          ["Cleanup folder will be: ./cleanup_untracked_2025-01-02_030405",
           "-> Finding untracked, non-ignored files...",
           "Found 2 untracked files that are not ignored.",
           "An unexpected error occurred: Read-only file system"],
        events := [], logEntries := [], filesMovedCount := 0 } :=
  ⟨by rfl,
   unexpected_error_caught envSetupFail "." "Read-only file system"
     { console :=
        ["Cleanup folder will be: ./cleanup_untracked_2025-01-02_030405",
         "-> Finding untracked, non-ignored files...",
         "Found 2 untracked files that are not ignored."],
       events := [], logEntries := [], filesMovedCount := 0 }
     (by rfl)⟩

/-- Claim C10: when the per-file `makedirs` (which sits outside the inner
`try`) fails for some file, the rest of the batch is abandoned: the log
holds only the header and the entries of the earlier files, the moved
files are exactly the earlier successful moves (they stay moved), no log
file is ever written, and the only report of the error is the top-level
generic handler's console line. -/
theorem makedirs_failure_aborts_batch (env : Env) (root_dir stdout msg bad : String)
    (pre post : List String)
    (h1 : env.revParse = GitResult.ok ()) (h2 : env.lsFiles = GitResult.ok stdout)
    (hsplit : untrackedOf env root_dir stdout = pre ++ bad :: post)
    (hmkc : env.makedirsError (cleanup_path env root_dir) = none)
    (hpre : ∀ p ∈ pre,
      env.makedirsError (pyDirname (pyJoin (cleanup_path env root_dir) p)) = none)
    (hbad : env.makedirsError (pyDirname (pyJoin (cleanup_path env root_dir) bad)) = some msg) :
    (find_and_move_untracked_files env root_dir).logEntries =
      headerEntries env (cleanup_folder env) (pre ++ bad :: post).length ++
        pre.map (logEntryFor env root_dir) ∧
    (find_and_move_untracked_files env root_dir).moved =
      (pre.filter (moveOk env root_dir)).map
        (fun p => (pyJoin root_dir p, pyJoin (cleanup_path env root_dir) p)) ∧
    (∀ pth c, Ev.writeLog pth c ∉ (find_and_move_untracked_files env root_dir).events) ∧
    (find_and_move_untracked_files env root_dir).console =
      preLoopConsole env root_dir (pre ++ bad :: post).length ++
        pre.map (consoleLineFor env root_dir) ++
        ["An unexpected error occurred: " ++ msg] := by
  have hne : (untrackedOf env root_dir stdout).isEmpty = false := by
    rw [hsplit]; cases pre <;> rfl
  have hrB := runBody_reach env root_dir stdout h1 h2 hne hmkc
  rw [hsplit] at hrB
  rw [loopFiles_err env root_dir (cleanup_path env root_dir) bad msg post hbad pre
    (preLoopSt env root_dir (pre ++ bad :: post).length) hpre] at hrB
  have hfind := find_of_generic hrB
  rw [hfind]
  refine ⟨?_, ?_, ?_, ?_⟩
  · simp [foldl_stepFile_logEntries, preLoopSt]
  · simp [St.moved, foldl_stepFile_events, preLoopSt, movedIn_append, movedIn_evsForList,
      movedIn_mkdirs_single, movedIn_mkdirs_cons]
  · intro pth c hmem
    simp only [] at hmem
    rw [foldl_stepFile_events] at hmem
    simp [preLoopSt] at hmem
    exact writeLog_not_in_evsForList env root_dir (cleanup_path env root_dir) pre pth c hmem
  · simp [foldl_stepFile_console, preLoopSt, preLoopConsole, List.append_assoc]

theorem makedirs_failure_aborts_batch_witness :
    (envMkdirLoopFail.revParse = GitResult.ok () ∧
     envMkdirLoopFail.lsFiles = GitResult.ok "c.txt\na/b.txt\n" ∧
     untrackedOf envMkdirLoopFail "." "c.txt\na/b.txt\n" = ["c.txt"] ++ "a/b.txt" :: [] ∧
     envMkdirLoopFail.makedirsError (cleanup_path envMkdirLoopFail ".") = none ∧
     (∀ p ∈ ["c.txt"],
       envMkdirLoopFail.makedirsError
         (pyDirname (pyJoin (cleanup_path envMkdirLoopFail ".") p)) = none) ∧
     envMkdirLoopFail.makedirsError
       (pyDirname (pyJoin (cleanup_path envMkdirLoopFail ".") "a/b.txt")) =
         some "Permission denied") ∧
    ((find_and_move_untracked_files envMkdirLoopFail ".").logEntries =
      headerEntries envMkdirLoopFail (cleanup_folder envMkdirLoopFail)
          (["c.txt"] ++ "a/b.txt" :: []).length ++
        (["c.txt"]).map (logEntryFor envMkdirLoopFail ".") ∧
    (find_and_move_untracked_files envMkdirLoopFail ".").moved =
      ((["c.txt"]).filter (moveOk envMkdirLoopFail ".")).map
        (fun p => (pyJoin "." p, pyJoin (cleanup_path envMkdirLoopFail ".") p)) ∧
    (∀ pth c, Ev.writeLog pth c ∉ (find_and_move_untracked_files envMkdirLoopFail ".").events) ∧
    (find_and_move_untracked_files envMkdirLoopFail ".").console =
      preLoopConsole envMkdirLoopFail "." (["c.txt"] ++ "a/b.txt" :: []).length ++
        (["c.txt"]).map (consoleLineFor envMkdirLoopFail ".") ++
        ["An unexpected error occurred: " ++ "Permission denied"]) :=
  ⟨⟨rfl, rfl, by decide, by decide, by decide, by decide⟩,
   makedirs_failure_aborts_batch envMkdirLoopFail "." "c.txt\na/b.txt\n" "Permission denied"
     "a/b.txt" ["c.txt"] [] rfl rfl (by decide) (by decide) (by decide) (by decide)⟩

end Arc
